import Mathlib

/-!
Verification of the grid-navigation state machine in
`src/table/table-role/use-grid-navigation.ts` (class `GridNavigationModel`).

The handlers are embedded as pure functions on an explicit model state.
Each handler returns the updated state, the trace of calls it makes to the
external primitives (`event.preventDefault`, `moveFocusBy`, `moveFocusIn`,
`updateTableIndices`), in order, and the error it throws, if any
(the `table` getter throws when `_table` is null).
-/

namespace GridNav

/-- A JS number as used for move deltas: an integer or ±Infinity
(`Number.NEGATIVE_INFINITY` / `Number.POSITIVE_INFINITY`). -/
inductive XInt where
  | negInf : XInt
  | fin : Int → XInt
  | posInf : XInt
deriving DecidableEq, Repr

/-- The `{ y, x }` delta passed to `moveFocusBy` (row delta, column delta). -/
structure Delta where
  y : XInt
  x : XInt
deriving DecidableEq, Repr

/-- Modelled from the spec: a DOM node, identified by an id together with the
ids of its descendants, enough to decide the containment test
`contains-or-equal(nodeA, nodeB)` of the external utility layer. -/
structure Node where
  id : Nat
  descendantIds : List Nat
deriving DecidableEq, Repr

/-- The bound table root element (`HTMLTableElement`). -/
abbrev Table := Node

/-- Modelled from the spec: `containsOrEqual` from `internal/utils/dom`
(not under `src/`): DOM containment test, true when `b` is `a` itself or a
descendant of `a`. -/
def containsOrEqual (a b : Node) : Bool :=
  a == b || a.descendantIds.contains b.id

/-- Modelled from the spec: the Focused Cell descriptor produced by the
cell-resolution primitive (`table-role/interfaces.ts` is not under `src/`):
the exact focused DOM node, the enclosing logical cell node, and whether the
cell hosts an interactive nested widget. -/
structure FocusedCell where
  element : Node
  cellElement : Node
  widget : Bool
deriving DecidableEq, Repr

/-- The fields of a DOM `KeyboardEvent` consulted by `onKeydown`.
`keyCode` is the DOM `unsigned long` key code. -/
structure KeyboardEvent where
  keyCode : Nat
  ctrlKey : Bool
  altKey : Bool
  shiftKey : Bool
  metaKey : Bool
deriving DecidableEq, Repr

/-- Modelled from the spec: a `focusin` event, carrying the outcome of the
external resolution primitive `resolve-focus-target(event)` (a Focused Cell
descriptor, or null when the target is not inside a recognized cell). -/
structure FocusEvent where
  target : Option FocusedCell
deriving DecidableEq, Repr

/-- Modelled from the spec: `findFocusinCell` from `table-role/utils`
(not under `src/`): resolves a focus event to its cell descriptor or null. -/
def findFocusinCell (event : FocusEvent) : Option FocusedCell :=
  event.target

/- Modelled from the spec: the `KeyCode` constants from `internal/keycode`
(not under `src/`), carrying the standard DOM `KeyboardEvent.keyCode`
values. Kept as `Int` because `onKeydown` negates the code for Ctrl. -/
namespace KeyCode

def up : Int := 38

def down : Int := 40

def left : Int := 37

def right : Int := 39

def pageUp : Int := 33

def pageDown : Int := 34

def home : Int := 36

def endKey : Int := 35

def enter : Int := 13

def escape : Int := 27

end KeyCode

/-- `const f2Code = 113` from `onKeydown`. -/
def f2Code : Int := 113

/-- One call made by a handler to an external primitive, in trace order. -/
inductive Effect where
  | preventDefault : Effect
  | moveFocusBy : Table → FocusedCell → Delta → Effect
  | moveFocusIn : FocusedCell → Effect
  | updateTableIndices : Table → Option FocusedCell → Effect
deriving DecidableEq, Repr

/-- The `cleanup` closure slot: the initial empty arrow function, or the
closure installed by `init`, capturing the bound table. -/
inductive Cleanup where
  | empty : Cleanup
  | forTable : Table → Cleanup
deriving DecidableEq, Repr

/-- The mutable fields of class `GridNavigationModel`. -/
structure GridNavigationModel where
  _pageSize : Int := 0
  _table : Option Table := none
  prevFocusedCell : Option FocusedCell := none
  focusedCell : Option FocusedCell := none
  cleanup : Cleanup := Cleanup.empty
deriving DecidableEq, Repr

/-- The message of the error thrown by the `table` getter. -/
def initErrorMsg : String :=
  "Invariant violation: GridNavigationModel is used before initialization."

/-- The private `table` getter: returns `_table` or throws when null. -/
def GridNavigationModel.table (s : GridNavigationModel) : Except String Table :=
  match s._table with
  | none => Except.error initErrorMsg
  | some t => Except.ok t

/-- Result of running one event handler: the state after it (field
assignments persist even past a throw, as in JS), the effect trace, and the
thrown error if the `table` getter fired on a null `_table`. -/
structure HandlerResult where
  state : GridNavigationModel
  effects : List Effect
  thrown : Option String
deriving DecidableEq, Repr

/-- Emits `pre`, then reads the `table` getter: on success appends the
effects `k table`, on a null `_table` throws instead. -/
def withTable (s : GridNavigationModel) (pre : List Effect)
    (k : Table → List Effect) : HandlerResult :=
  match s._table with
  | none => ⟨s, pre, some initErrorMsg⟩
  | some t => ⟨s, pre ++ k t, none⟩

/-- The widget-focus gate at the top of `onKeydown`'s key handling:
`from.widget && from.element !== from.cellElement`. -/
def widgetGate (c : FocusedCell) : Prop :=
  c.widget = true ∧ c.element ≠ c.cellElement

instance (c : FocusedCell) : Decidable (widgetGate c) := by
  unfold widgetGate; infer_instance

/-- The shape shared by every `moveFocusBy` branch of `onKeydown`:
`event.preventDefault()` and then `moveFocusBy(this.table, from, delta)`
(evaluating the `table` getter throws on a null `_table`). -/
def moveCommand (s : GridNavigationModel) (fromCell : FocusedCell)
    (d : Delta) : HandlerResult :=
  withTable s [Effect.preventDefault]
    (fun t => [Effect.moveFocusBy t fromCell d])

/-- The body of `onKeydown` after the modifier handling: the widget-focus
gate followed by the `switch` on the (possibly negated) key code. -/
def onKeydownDispatch (s : GridNavigationModel) (fromCell : FocusedCell)
    (key : Int) : HandlerResult :=
  if widgetGate fromCell then
    if key = KeyCode.escape ∨ key = f2Code then
      moveCommand s fromCell ⟨XInt.fin 0, XInt.fin 0⟩
    else ⟨s, [], none⟩
  else if key = KeyCode.up then
    moveCommand s fromCell ⟨XInt.fin (-1), XInt.fin 0⟩
  else if key = KeyCode.down then
    moveCommand s fromCell ⟨XInt.fin 1, XInt.fin 0⟩
  else if key = KeyCode.left then
    moveCommand s fromCell ⟨XInt.fin 0, XInt.fin (-1)⟩
  else if key = KeyCode.right then
    moveCommand s fromCell ⟨XInt.fin 0, XInt.fin 1⟩
  else if key = KeyCode.pageUp then
    moveCommand s fromCell ⟨XInt.fin (-s._pageSize), XInt.fin 0⟩
  else if key = KeyCode.pageDown then
    moveCommand s fromCell ⟨XInt.fin s._pageSize, XInt.fin 0⟩
  else if key = KeyCode.home then
    moveCommand s fromCell ⟨XInt.fin 0, XInt.negInf⟩
  else if key = KeyCode.endKey then
    moveCommand s fromCell ⟨XInt.fin 0, XInt.posInf⟩
  else if key = -KeyCode.home then
    moveCommand s fromCell ⟨XInt.negInf, XInt.negInf⟩
  else if key = -KeyCode.endKey then
    moveCommand s fromCell ⟨XInt.posInf, XInt.posInf⟩
  else if key = KeyCode.enter then
    if fromCell.element = fromCell.cellElement then
      ⟨s, [Effect.preventDefault, Effect.moveFocusIn fromCell], none⟩
    else ⟨s, [], none⟩
  else if key = KeyCode.escape then
    if fromCell.element ≠ fromCell.cellElement then
      moveCommand s fromCell ⟨XInt.fin 0, XInt.fin 0⟩
    else ⟨s, [], none⟩
  else if key = f2Code then
    if fromCell.element = fromCell.cellElement then
      ⟨s, [Effect.preventDefault, Effect.moveFocusIn fromCell], none⟩
    else
      moveCommand s fromCell ⟨XInt.fin 0, XInt.fin 0⟩
  else ⟨s, [], none⟩

/-- `numModifiersPressed` as computed at the top of `onKeydown`. -/
def numModifiersPressed (event : KeyboardEvent) : Nat :=
  (if event.ctrlKey then 1 else 0) + (if event.altKey then 1 else 0) +
    (if event.shiftKey then 1 else 0) + (if event.metaKey then 1 else 0)

/-- The `onKeydown` handler. -/
def GridNavigationModel.onKeydown (s : GridNavigationModel)
    (event : KeyboardEvent) : HandlerResult :=
  match s.focusedCell with
  | none => ⟨s, [], none⟩
  | some fromCell =>
    if numModifiersPressed event = 1 ∧ event.ctrlKey = true then
      onKeydownDispatch s fromCell (-(event.keyCode : Int))
    else if numModifiersPressed event ≠ 0 then
      ⟨s, [], none⟩
    else
      onKeydownDispatch s fromCell (event.keyCode : Int)

/-- The `onFocusin` handler. -/
def GridNavigationModel.onFocusin (s : GridNavigationModel)
    (event : FocusEvent) : HandlerResult :=
  match findFocusinCell event with
  | none => ⟨s, [], none⟩
  | some cell =>
    let s1 := { s with prevFocusedCell := some cell, focusedCell := some cell }
    match s1._table with
    | none => ⟨s1, [], some initErrorMsg⟩
    | some t => ⟨s1, [Effect.updateTableIndices t (some cell)], none⟩

/-- The `onFocusout` handler. -/
def GridNavigationModel.onFocusout (s : GridNavigationModel) : HandlerResult :=
  ⟨{ s with focusedCell := none }, [], none⟩

/-- One entry of the `MutationRecord[]` batch: its `type` string and its
`removedNodes` list. -/
structure MutationRecord where
  type : String
  removedNodes : List Node
deriving DecidableEq, Repr

/-- The inner loop of `onMutation` over `record.removedNodes`: one
zero-delta `moveFocusBy` per removed node containing the previously focused
element. -/
def recordRemovalMoves (t : Table) (prev : FocusedCell)
    (nodes : List Node) : List Effect :=
  match nodes with
  | [] => []
  | n :: rest =>
    if containsOrEqual n prev.element then
      Effect.moveFocusBy t prev ⟨XInt.fin 0, XInt.fin 0⟩ :: recordRemovalMoves t prev rest
    else recordRemovalMoves t prev rest

/-- The outer loop of `onMutation` over the records, keeping only those of
`childList` type. -/
def mutationMoves (t : Table) (prev : FocusedCell)
    (records : List MutationRecord) : List Effect :=
  match records with
  | [] => []
  | r :: rest =>
    (if r.type = "childList" then recordRemovalMoves t prev r.removedNodes else [])
      ++ mutationMoves t prev rest

/-- The `onMutation` handler. With a null `_table` the first `table` getter
read throws (at the first matching removal, or at the final
`updateTableIndices`), before any effect is delivered. -/
def GridNavigationModel.onMutation (s : GridNavigationModel)
    (records : List MutationRecord) : HandlerResult :=
  match s.prevFocusedCell with
  | none => ⟨s, [], none⟩
  | some prev =>
    match s._table with
    | none => ⟨s, [], some initErrorMsg⟩
    | some t =>
      ⟨s, mutationMoves t prev records
            ++ [Effect.updateTableIndices t (some (s.focusedCell.getD prev))],
        none⟩

/-- The three listeners and the mutation observer installed on the table:
presence flags for the DOM side of `init`/`destroy` (adding or removing
twice is idempotent, as for `addEventListener`/`removeEventListener`). -/
structure ListenerEnv where
  focusinListener : Bool
  focusoutListener : Bool
  keydownListener : Bool
  observerConnected : Bool
deriving DecidableEq, Repr

/-- `init(table)`: stores the table, installs the listeners and the
observer, stamps indices from `focusedCell ?? prevFocusedCell`, and
replaces the `cleanup` closure. -/
def GridNavigationModel.init (s : GridNavigationModel) (table : Table) :
    GridNavigationModel × ListenerEnv × List Effect :=
  let s1 := { s with _table := some table }
  let anchor := match s1.focusedCell with
    | some c => some c
    | none => s1.prevFocusedCell
  ({ s1 with cleanup := Cleanup.forTable table },
    ⟨true, true, true, true⟩,
    [Effect.updateTableIndices table anchor])

/-- `destroy()`: invokes the current `cleanup` closure. The empty closure
does nothing; the installed one reads the `table` getter and removes the
listeners and disconnects the observer. No field of the model is assigned. -/
def GridNavigationModel.destroy (s : GridNavigationModel) (env : ListenerEnv) :
    GridNavigationModel × ListenerEnv × Option String :=
  match s.cleanup with
  | Cleanup.empty => (s, env, none)
  | Cleanup.forTable _ =>
    match s._table with
    | none => (s, env, some initErrorMsg)
    | some _ => (s, ⟨false, false, false, false⟩, none)

/-- `update({ pageSize })`: merges the configuration. -/
def GridNavigationModel.update (s : GridNavigationModel) (pageSize : Int) :
    GridNavigationModel :=
  { s with _pageSize := pageSize }

/-- One externally triggered transition of the model: an event delivered to
a handler or a lifecycle call. -/
inductive Action where
  | focusin : FocusEvent → Action
  | focusout : Action
  | keydown : KeyboardEvent → Action
  | mutation : List MutationRecord → Action
  | init : Table → Action
  | destroy : Action
  | update : Int → Action
deriving Repr

/-- The transition function over model state and listener environment. -/
def step (s : GridNavigationModel) (env : ListenerEnv) (a : Action) :
    GridNavigationModel × ListenerEnv :=
  match a with
  | Action.focusin ev => ((s.onFocusin ev).state, env)
  | Action.focusout => (s.onFocusout.state, env)
  | Action.keydown ev => ((s.onKeydown ev).state, env)
  | Action.mutation rs => ((s.onMutation rs).state, env)
  | Action.init t => ((s.init t).1, (s.init t).2.1)
  | Action.destroy => ((s.destroy env).1, (s.destroy env).2.1)
  | Action.update p => (s.update p, env)

/-! ## Shared sample data for concrete witnesses -/

/-- A cell node whose only descendant is the nested widget node. -/
def sampleCellNode : Node := ⟨2, [3]⟩

/-- A widget node nested inside `sampleCellNode`. -/
def sampleWidgetNode : Node := ⟨3, []⟩

/-- A table containing the sample cell and widget. -/
def sampleTable : Table := ⟨1, [2, 3]⟩

/-- Cell-level focus: the focused element is the cell element itself. -/
def sampleCell : FocusedCell := ⟨sampleCellNode, sampleCellNode, false⟩

/-- Widget-level focus: the focused element is the nested widget. -/
def sampleWidgetCell : FocusedCell := ⟨sampleWidgetNode, sampleCellNode, true⟩

/-- A model state after `init` and a successful `focusin` on `sampleCell`. -/
def sampleState : GridNavigationModel :=
  { _pageSize := 2, _table := some sampleTable,
    prevFocusedCell := some sampleCell, focusedCell := some sampleCell,
    cleanup := Cleanup.forTable sampleTable }

/-- A freshly initialized model: table bound, no focus observed yet. -/
def sampleInitState : GridNavigationModel :=
  { _table := some sampleTable, cleanup := Cleanup.forTable sampleTable }

/-- A model state whose focus sits on the nested widget of a widget cell. -/
def sampleWidgetState : GridNavigationModel :=
  { _pageSize := 2, _table := some sampleTable,
    prevFocusedCell := some sampleWidgetCell,
    focusedCell := some sampleWidgetCell,
    cleanup := Cleanup.forTable sampleTable }

/-! ## Shared lemmas -/

/-- The effects `onKeydown` may emit: anything except `updateTableIndices`. -/
def isKeydownEffect : Effect → Bool
  | Effect.preventDefault => true
  | Effect.moveFocusBy _ _ _ => true
  | Effect.moveFocusIn _ => true
  | Effect.updateTableIndices _ _ => false

theorem moveCommand_shape (s : GridNavigationModel) (c : FocusedCell)
    (d : Delta) :
    (moveCommand s c d).state = s ∧
      (moveCommand s c d).effects.all isKeydownEffect = true ∧
      ((moveCommand s c d).effects = [] ∨
        (moveCommand s c d).effects.head? = some Effect.preventDefault) := by
  unfold moveCommand withTable
  cases s._table <;> simp [isKeydownEffect]

theorem moveCommand_eq (s : GridNavigationModel) (c : FocusedCell) (d : Delta)
    (t : Table) (ht : s._table = some t) :
    moveCommand s c d =
      ⟨s, [Effect.preventDefault, Effect.moveFocusBy t c d], none⟩ := by
  unfold moveCommand withTable
  rw [ht]
  rfl

/-! Branch equations for `onKeydownDispatch`, mirroring the cases of the
`switch` statement. -/

theorem dispatch_widget_escape (s : GridNavigationModel) (c : FocusedCell)
    (k : Int) (hw : widgetGate c) (hk : k = KeyCode.escape ∨ k = f2Code) :
    onKeydownDispatch s c k = moveCommand s c ⟨XInt.fin 0, XInt.fin 0⟩ := by
  unfold onKeydownDispatch
  rw [if_pos hw, if_pos hk]

theorem dispatch_widget_other (s : GridNavigationModel) (c : FocusedCell)
    (k : Int) (hw : widgetGate c) (hk : ¬(k = KeyCode.escape ∨ k = f2Code)) :
    onKeydownDispatch s c k = ⟨s, [], none⟩ := by
  unfold onKeydownDispatch
  rw [if_pos hw, if_neg hk]

theorem dispatch_up (s : GridNavigationModel) (c : FocusedCell) (k : Int)
    (hw : ¬widgetGate c) (hk : k = KeyCode.up) :
    onKeydownDispatch s c k = moveCommand s c ⟨XInt.fin (-1), XInt.fin 0⟩ := by
  subst hk; unfold onKeydownDispatch
  rw [if_neg hw, if_pos rfl]

theorem dispatch_down (s : GridNavigationModel) (c : FocusedCell) (k : Int)
    (hw : ¬widgetGate c) (hk : k = KeyCode.down) :
    onKeydownDispatch s c k = moveCommand s c ⟨XInt.fin 1, XInt.fin 0⟩ := by
  subst hk; unfold onKeydownDispatch
  rw [if_neg hw, if_neg (by decide), if_pos rfl]

theorem dispatch_left (s : GridNavigationModel) (c : FocusedCell) (k : Int)
    (hw : ¬widgetGate c) (hk : k = KeyCode.left) :
    onKeydownDispatch s c k = moveCommand s c ⟨XInt.fin 0, XInt.fin (-1)⟩ := by
  subst hk; unfold onKeydownDispatch
  rw [if_neg hw, if_neg (by decide), if_neg (by decide), if_pos rfl]

theorem dispatch_right (s : GridNavigationModel) (c : FocusedCell) (k : Int)
    (hw : ¬widgetGate c) (hk : k = KeyCode.right) :
    onKeydownDispatch s c k = moveCommand s c ⟨XInt.fin 0, XInt.fin 1⟩ := by
  subst hk; unfold onKeydownDispatch
  rw [if_neg hw, if_neg (by decide), if_neg (by decide), if_neg (by decide),
    if_pos rfl]

theorem dispatch_pageUp (s : GridNavigationModel) (c : FocusedCell) (k : Int)
    (hw : ¬widgetGate c) (hk : k = KeyCode.pageUp) :
    onKeydownDispatch s c k =
      moveCommand s c ⟨XInt.fin (-s._pageSize), XInt.fin 0⟩ := by
  subst hk; unfold onKeydownDispatch
  rw [if_neg hw, if_neg (by decide), if_neg (by decide), if_neg (by decide),
    if_neg (by decide), if_pos rfl]

theorem dispatch_pageDown (s : GridNavigationModel) (c : FocusedCell) (k : Int)
    (hw : ¬widgetGate c) (hk : k = KeyCode.pageDown) :
    onKeydownDispatch s c k =
      moveCommand s c ⟨XInt.fin s._pageSize, XInt.fin 0⟩ := by
  subst hk; unfold onKeydownDispatch
  rw [if_neg hw, if_neg (by decide), if_neg (by decide), if_neg (by decide),
    if_neg (by decide), if_neg (by decide), if_pos rfl]

theorem dispatch_home (s : GridNavigationModel) (c : FocusedCell) (k : Int)
    (hw : ¬widgetGate c) (hk : k = KeyCode.home) :
    onKeydownDispatch s c k = moveCommand s c ⟨XInt.fin 0, XInt.negInf⟩ := by
  subst hk; unfold onKeydownDispatch
  rw [if_neg hw, if_neg (by decide), if_neg (by decide), if_neg (by decide),
    if_neg (by decide), if_neg (by decide), if_neg (by decide), if_pos rfl]

theorem dispatch_endKey (s : GridNavigationModel) (c : FocusedCell) (k : Int)
    (hw : ¬widgetGate c) (hk : k = KeyCode.endKey) :
    onKeydownDispatch s c k = moveCommand s c ⟨XInt.fin 0, XInt.posInf⟩ := by
  subst hk; unfold onKeydownDispatch
  rw [if_neg hw, if_neg (by decide), if_neg (by decide), if_neg (by decide),
    if_neg (by decide), if_neg (by decide), if_neg (by decide),
    if_neg (by decide), if_pos rfl]

theorem dispatch_ctrlHome (s : GridNavigationModel) (c : FocusedCell) (k : Int)
    (hw : ¬widgetGate c) (hk : k = -KeyCode.home) :
    onKeydownDispatch s c k = moveCommand s c ⟨XInt.negInf, XInt.negInf⟩ := by
  subst hk; unfold onKeydownDispatch
  rw [if_neg hw, if_neg (by decide), if_neg (by decide), if_neg (by decide),
    if_neg (by decide), if_neg (by decide), if_neg (by decide),
    if_neg (by decide), if_neg (by decide), if_pos rfl]

theorem dispatch_ctrlEnd (s : GridNavigationModel) (c : FocusedCell) (k : Int)
    (hw : ¬widgetGate c) (hk : k = -KeyCode.endKey) :
    onKeydownDispatch s c k = moveCommand s c ⟨XInt.posInf, XInt.posInf⟩ := by
  subst hk; unfold onKeydownDispatch
  rw [if_neg hw, if_neg (by decide), if_neg (by decide), if_neg (by decide),
    if_neg (by decide), if_neg (by decide), if_neg (by decide),
    if_neg (by decide), if_neg (by decide), if_neg (by decide), if_pos rfl]

theorem dispatch_enter (s : GridNavigationModel) (c : FocusedCell) (k : Int)
    (hw : ¬widgetGate c) (hk : k = KeyCode.enter) :
    onKeydownDispatch s c k =
      if c.element = c.cellElement then
        ⟨s, [Effect.preventDefault, Effect.moveFocusIn c], none⟩
      else ⟨s, [], none⟩ := by
  subst hk; unfold onKeydownDispatch
  rw [if_neg hw, if_neg (by decide), if_neg (by decide), if_neg (by decide),
    if_neg (by decide), if_neg (by decide), if_neg (by decide),
    if_neg (by decide), if_neg (by decide), if_neg (by decide),
    if_neg (by decide), if_pos rfl]

theorem dispatch_escape (s : GridNavigationModel) (c : FocusedCell) (k : Int)
    (hw : ¬widgetGate c) (hk : k = KeyCode.escape) :
    onKeydownDispatch s c k =
      if c.element ≠ c.cellElement then
        moveCommand s c ⟨XInt.fin 0, XInt.fin 0⟩
      else ⟨s, [], none⟩ := by
  subst hk; unfold onKeydownDispatch
  rw [if_neg hw, if_neg (by decide), if_neg (by decide), if_neg (by decide),
    if_neg (by decide), if_neg (by decide), if_neg (by decide),
    if_neg (by decide), if_neg (by decide), if_neg (by decide),
    if_neg (by decide), if_neg (by decide), if_pos rfl]

theorem dispatch_f2 (s : GridNavigationModel) (c : FocusedCell) (k : Int)
    (hw : ¬widgetGate c) (hk : k = f2Code) :
    onKeydownDispatch s c k =
      if c.element = c.cellElement then
        ⟨s, [Effect.preventDefault, Effect.moveFocusIn c], none⟩
      else moveCommand s c ⟨XInt.fin 0, XInt.fin 0⟩ := by
  subst hk; unfold onKeydownDispatch
  rw [if_neg hw, if_neg (by decide), if_neg (by decide), if_neg (by decide),
    if_neg (by decide), if_neg (by decide), if_neg (by decide),
    if_neg (by decide), if_neg (by decide), if_neg (by decide),
    if_neg (by decide), if_neg (by decide), if_neg (by decide), if_pos rfl]

/-- The commands recognized by the key `switch` outside the widget gate. -/
def recognizedKey (k : Int) : Prop :=
  k = KeyCode.up ∨ k = KeyCode.down ∨ k = KeyCode.left ∨ k = KeyCode.right ∨
    k = KeyCode.pageUp ∨ k = KeyCode.pageDown ∨ k = KeyCode.home ∨
    k = KeyCode.endKey ∨ k = -KeyCode.home ∨ k = -KeyCode.endKey ∨
    k = KeyCode.enter ∨ k = KeyCode.escape ∨ k = f2Code

instance (k : Int) : Decidable (recognizedKey k) := by
  unfold recognizedKey; infer_instance

theorem dispatch_default (s : GridNavigationModel) (c : FocusedCell) (k : Int)
    (hw : ¬widgetGate c) (hk : ¬recognizedKey k) :
    onKeydownDispatch s c k = ⟨s, [], none⟩ := by
  unfold recognizedKey at hk
  push_neg at hk
  obtain ⟨h1, h2, h3, h4, h5, h6, h7, h8, h9, h10, h11, h12, h13⟩ := hk
  unfold onKeydownDispatch
  rw [if_neg hw, if_neg h1, if_neg h2, if_neg h3, if_neg h4, if_neg h5,
    if_neg h6, if_neg h7, if_neg h8, if_neg h9, if_neg h10, if_neg h11,
    if_neg h12, if_neg h13]

theorem onKeydownDispatch_shape (s : GridNavigationModel) (c : FocusedCell)
    (k : Int) :
    (onKeydownDispatch s c k).state = s ∧
      (onKeydownDispatch s c k).effects.all isKeydownEffect = true ∧
      ((onKeydownDispatch s c k).effects = [] ∨
        (onKeydownDispatch s c k).effects.head? = some Effect.preventDefault) := by
  by_cases hw : widgetGate c
  · by_cases hk : k = KeyCode.escape ∨ k = f2Code
    · rw [dispatch_widget_escape s c k hw hk]; exact moveCommand_shape s c _
    · rw [dispatch_widget_other s c k hw hk]; exact ⟨rfl, rfl, Or.inl rfl⟩
  · by_cases h1 : k = KeyCode.up
    · rw [dispatch_up s c k hw h1]; exact moveCommand_shape s c _
    · by_cases h2 : k = KeyCode.down
      · rw [dispatch_down s c k hw h2]; exact moveCommand_shape s c _
      · by_cases h3 : k = KeyCode.left
        · rw [dispatch_left s c k hw h3]; exact moveCommand_shape s c _
        · by_cases h4 : k = KeyCode.right
          · rw [dispatch_right s c k hw h4]; exact moveCommand_shape s c _
          · by_cases h5 : k = KeyCode.pageUp
            · rw [dispatch_pageUp s c k hw h5]; exact moveCommand_shape s c _
            · by_cases h6 : k = KeyCode.pageDown
              · rw [dispatch_pageDown s c k hw h6]; exact moveCommand_shape s c _
              · by_cases h7 : k = KeyCode.home
                · rw [dispatch_home s c k hw h7]; exact moveCommand_shape s c _
                · by_cases h8 : k = KeyCode.endKey
                  · rw [dispatch_endKey s c k hw h8]; exact moveCommand_shape s c _
                  · by_cases h9 : k = -KeyCode.home
                    · rw [dispatch_ctrlHome s c k hw h9]; exact moveCommand_shape s c _
                    · by_cases h10 : k = -KeyCode.endKey
                      · rw [dispatch_ctrlEnd s c k hw h10]; exact moveCommand_shape s c _
                      · by_cases h11 : k = KeyCode.enter
                        · rw [dispatch_enter s c k hw h11]
                          by_cases hc : c.element = c.cellElement
                          · rw [if_pos hc]; exact ⟨rfl, rfl, Or.inr rfl⟩
                          · rw [if_neg hc]; exact ⟨rfl, rfl, Or.inl rfl⟩
                        · by_cases h12 : k = KeyCode.escape
                          · rw [dispatch_escape s c k hw h12]
                            by_cases hc : c.element ≠ c.cellElement
                            · rw [if_pos hc]; exact moveCommand_shape s c _
                            · rw [if_neg hc]; exact ⟨rfl, rfl, Or.inl rfl⟩
                          · by_cases h13 : k = f2Code
                            · rw [dispatch_f2 s c k hw h13]
                              by_cases hc : c.element = c.cellElement
                              · rw [if_pos hc]; exact ⟨rfl, rfl, Or.inr rfl⟩
                              · rw [if_neg hc]; exact moveCommand_shape s c _
                            · rw [dispatch_default s c k hw (by
                                unfold recognizedKey
                                simp only [not_or]
                                exact ⟨h1, h2, h3, h4, h5, h6, h7, h8, h9, h10,
                                  h11, h12, h13⟩)]
                              exact ⟨rfl, rfl, Or.inl rfl⟩

/-! Modifier-handling equations for `onKeydown`. -/

theorem onKeydown_noMods (s : GridNavigationModel) (ev : KeyboardEvent)
    (cell : FocusedCell) (hf : s.focusedCell = some cell)
    (h0 : numModifiersPressed ev = 0) :
    s.onKeydown ev = onKeydownDispatch s cell (ev.keyCode : Int) := by
  have hA : ¬(numModifiersPressed ev = 1 ∧ ev.ctrlKey = true) := by
    rw [h0]; rintro ⟨h, -⟩; exact absurd h (by decide)
  have hB : ¬(numModifiersPressed ev ≠ 0) := fun h => h h0
  simp only [GridNavigationModel.onKeydown, hf]
  rw [if_neg hA, if_neg hB]

theorem onKeydown_ctrlOnly (s : GridNavigationModel) (ev : KeyboardEvent)
    (cell : FocusedCell) (hf : s.focusedCell = some cell)
    (h1 : numModifiersPressed ev = 1) (hc : ev.ctrlKey = true) :
    s.onKeydown ev = onKeydownDispatch s cell (-(ev.keyCode : Int)) := by
  simp only [GridNavigationModel.onKeydown, hf]
  rw [if_pos ⟨h1, hc⟩]

theorem onKeydown_otherMods (s : GridNavigationModel) (ev : KeyboardEvent)
    (cell : FocusedCell) (hf : s.focusedCell = some cell)
    (h1 : numModifiersPressed ev ≠ 0)
    (h2 : ¬(numModifiersPressed ev = 1 ∧ ev.ctrlKey = true)) :
    s.onKeydown ev = ⟨s, [], none⟩ := by
  simp only [GridNavigationModel.onKeydown, hf]
  rw [if_neg h2, if_pos h1]

/-- C10: for every keydown event and model state, the keydown handler leaves
every model field unchanged, and its only effects are `preventDefault` and
calls to the move primitives (never `updateTableIndices`). -/
theorem onKeydown_frame (s : GridNavigationModel) (event : KeyboardEvent) :
    (s.onKeydown event).state = s ∧
      (s.onKeydown event).effects.all isKeydownEffect = true := by
  cases hf : s.focusedCell with
  | none =>
    simp [GridNavigationModel.onKeydown, hf]
  | some c =>
    by_cases hA : numModifiersPressed event = 1 ∧ event.ctrlKey = true
    · rw [onKeydown_ctrlOnly s event c hf hA.1 hA.2]
      exact ⟨(onKeydownDispatch_shape s c _).1, (onKeydownDispatch_shape s c _).2.1⟩
    · by_cases hB : numModifiersPressed event = 0
      · rw [onKeydown_noMods s event c hf hB]
        exact ⟨(onKeydownDispatch_shape s c _).1, (onKeydownDispatch_shape s c _).2.1⟩
      · rw [onKeydown_otherMods s event c hf hB hA]
        exact ⟨rfl, rfl⟩

/-- C3: with a focused cell, Ctrl as the sole modifier negates the key code
and dispatches the jump variant; any other nonempty modifier combination is
ignored entirely (no effect, no `preventDefault`, no state change). -/
theorem onKeydown_modifier_handling (s : GridNavigationModel)
    (ev : KeyboardEvent) (cell : FocusedCell) (hf : s.focusedCell = some cell) :
    (numModifiersPressed ev = 1 ∧ ev.ctrlKey = true →
      s.onKeydown ev = onKeydownDispatch s cell (-(ev.keyCode : Int))) ∧
    (1 ≤ numModifiersPressed ev → ¬(numModifiersPressed ev = 1 ∧ ev.ctrlKey = true) →
      s.onKeydown ev = ⟨s, [], none⟩) := by
  refine ⟨fun h => ?_, fun h1 h2 => ?_⟩
  · exact onKeydown_ctrlOnly s ev cell hf h.1 h.2
  · exact onKeydown_otherMods s ev cell hf (by omega) h2

/-- Witness for C3: pressing Home with Ctrl+Alt held (two modifiers) while
`sampleCell` is focused is ignored entirely. -/
theorem onKeydown_modifier_handling_witness :
    sampleState.onKeydown ⟨36, true, true, false, false⟩ =
      ⟨sampleState, [], none⟩ :=
  (onKeydown_modifier_handling sampleState ⟨36, true, true, false, false⟩
    sampleCell rfl).2 (by decide) (by decide)

/-- C1: at cell-level focus with no modifiers, Up/Down/Left/Right move by
(∓1, 0)/(0, ∓1), Page Up/Page Down by (∓pageSize, 0), Home/End by
(0, −∞)/(0, +∞), and with Ctrl as the sole modifier Home/End jump to
(−∞, −∞)/(+∞, +∞); each command calls `preventDefault` before dispatching
its `moveFocusBy`. -/
theorem onKeydown_cell_commands (s : GridNavigationModel) (ev : KeyboardEvent)
    (cell : FocusedCell) (t : Table)
    (hf : s.focusedCell = some cell) (hc : cell.element = cell.cellElement)
    (ht : s._table = some t)
    (halt : ev.altKey = false) (hshift : ev.shiftKey = false)
    (hmeta : ev.metaKey = false) :
    (ev.ctrlKey = false →
      (ev.keyCode = 38 → s.onKeydown ev = ⟨s, [Effect.preventDefault,
        Effect.moveFocusBy t cell ⟨XInt.fin (-1), XInt.fin 0⟩], none⟩) ∧
      (ev.keyCode = 40 → s.onKeydown ev = ⟨s, [Effect.preventDefault,
        Effect.moveFocusBy t cell ⟨XInt.fin 1, XInt.fin 0⟩], none⟩) ∧
      (ev.keyCode = 37 → s.onKeydown ev = ⟨s, [Effect.preventDefault,
        Effect.moveFocusBy t cell ⟨XInt.fin 0, XInt.fin (-1)⟩], none⟩) ∧
      (ev.keyCode = 39 → s.onKeydown ev = ⟨s, [Effect.preventDefault,
        Effect.moveFocusBy t cell ⟨XInt.fin 0, XInt.fin 1⟩], none⟩) ∧
      (ev.keyCode = 33 → s.onKeydown ev = ⟨s, [Effect.preventDefault,
        Effect.moveFocusBy t cell ⟨XInt.fin (-s._pageSize), XInt.fin 0⟩], none⟩) ∧
      (ev.keyCode = 34 → s.onKeydown ev = ⟨s, [Effect.preventDefault,
        Effect.moveFocusBy t cell ⟨XInt.fin s._pageSize, XInt.fin 0⟩], none⟩) ∧
      (ev.keyCode = 36 → s.onKeydown ev = ⟨s, [Effect.preventDefault,
        Effect.moveFocusBy t cell ⟨XInt.fin 0, XInt.negInf⟩], none⟩) ∧
      (ev.keyCode = 35 → s.onKeydown ev = ⟨s, [Effect.preventDefault,
        Effect.moveFocusBy t cell ⟨XInt.fin 0, XInt.posInf⟩], none⟩)) ∧
    (ev.ctrlKey = true →
      (ev.keyCode = 36 → s.onKeydown ev = ⟨s, [Effect.preventDefault,
        Effect.moveFocusBy t cell ⟨XInt.negInf, XInt.negInf⟩], none⟩) ∧
      (ev.keyCode = 35 → s.onKeydown ev = ⟨s, [Effect.preventDefault,
        Effect.moveFocusBy t cell ⟨XInt.posInf, XInt.posInf⟩], none⟩)) := by
  have hw : ¬widgetGate cell := fun h => h.2 hc
  refine ⟨fun hctrl => ?_, fun hctrl => ?_⟩
  · have h0 : numModifiersPressed ev = 0 := by
      simp [numModifiersPressed, halt, hshift, hmeta, hctrl]
    have hnm := onKeydown_noMods s ev cell hf h0
    refine ⟨fun hk => ?_, fun hk => ?_, fun hk => ?_, fun hk => ?_,
      fun hk => ?_, fun hk => ?_, fun hk => ?_, fun hk => ?_⟩
    · rw [hnm, dispatch_up s cell _ hw (by rw [hk]; decide),
        moveCommand_eq s cell _ t ht]
    · rw [hnm, dispatch_down s cell _ hw (by rw [hk]; decide),
        moveCommand_eq s cell _ t ht]
    · rw [hnm, dispatch_left s cell _ hw (by rw [hk]; decide),
        moveCommand_eq s cell _ t ht]
    · rw [hnm, dispatch_right s cell _ hw (by rw [hk]; decide),
        moveCommand_eq s cell _ t ht]
    · rw [hnm, dispatch_pageUp s cell _ hw (by rw [hk]; decide),
        moveCommand_eq s cell _ t ht]
    · rw [hnm, dispatch_pageDown s cell _ hw (by rw [hk]; decide),
        moveCommand_eq s cell _ t ht]
    · rw [hnm, dispatch_home s cell _ hw (by rw [hk]; decide),
        moveCommand_eq s cell _ t ht]
    · rw [hnm, dispatch_endKey s cell _ hw (by rw [hk]; decide),
        moveCommand_eq s cell _ t ht]
  · have h1 : numModifiersPressed ev = 1 := by
      simp [numModifiersPressed, halt, hshift, hmeta, hctrl]
    have hcm := onKeydown_ctrlOnly s ev cell hf h1 hctrl
    refine ⟨fun hk => ?_, fun hk => ?_⟩
    · rw [hcm, dispatch_ctrlHome s cell _ hw (by rw [hk]; decide),
        moveCommand_eq s cell _ t ht]
    · rw [hcm, dispatch_ctrlEnd s cell _ hw (by rw [hk]; decide),
        moveCommand_eq s cell _ t ht]

/-- Witness for C1: Up with no modifiers at cell-level focus dispatches
`preventDefault` then a (−1, 0) move. -/
theorem onKeydown_cell_commands_witness :
    sampleState.onKeydown ⟨38, false, false, false, false⟩ =
      ⟨sampleState, [Effect.preventDefault,
        Effect.moveFocusBy sampleTable sampleCell ⟨XInt.fin (-1), XInt.fin 0⟩],
        none⟩ :=
  ((onKeydown_cell_commands sampleState ⟨38, false, false, false, false⟩
    sampleCell sampleTable rfl rfl rfl rfl rfl rfl).1 rfl).1 rfl

/-- C2: while the focused element is a nested widget inside its cell, only
plain Escape and F2 are intercepted (both `preventDefault` and dispatch a
zero-delta move re-focusing the cell); every other keydown, including any
modified one, is passed through untouched. -/
theorem onKeydown_widget_gating (s : GridNavigationModel) (ev : KeyboardEvent)
    (cell : FocusedCell) (t : Table)
    (hf : s.focusedCell = some cell) (hw : cell.widget = true)
    (hne : cell.element ≠ cell.cellElement) (ht : s._table = some t) :
    (numModifiersPressed ev = 0 → (ev.keyCode = 27 ∨ ev.keyCode = 113) →
      s.onKeydown ev = ⟨s, [Effect.preventDefault,
        Effect.moveFocusBy t cell ⟨XInt.fin 0, XInt.fin 0⟩], none⟩) ∧
    (¬(numModifiersPressed ev = 0 ∧ (ev.keyCode = 27 ∨ ev.keyCode = 113)) →
      s.onKeydown ev = ⟨s, [], none⟩) := by
  have hwg : widgetGate cell := ⟨hw, hne⟩
  refine ⟨fun h0 hk => ?_, fun h => ?_⟩
  · rw [onKeydown_noMods s ev cell hf h0]
    have hk' : (ev.keyCode : Int) = KeyCode.escape ∨ (ev.keyCode : Int) = f2Code := by
      rcases hk with hk | hk
      · exact Or.inl (by rw [hk]; decide)
      · exact Or.inr (by rw [hk]; decide)
    rw [dispatch_widget_escape s cell _ hwg hk', moveCommand_eq s cell _ t ht]
  · by_cases h0 : numModifiersPressed ev = 0
    · have hk : ¬(ev.keyCode = 27 ∨ ev.keyCode = 113) := fun hk => h ⟨h0, hk⟩
      rw [onKeydown_noMods s ev cell hf h0]
      have hkc : ¬((ev.keyCode : Int) = KeyCode.escape ∨
          (ev.keyCode : Int) = f2Code) := by
        unfold KeyCode.escape f2Code
        intro h'
        apply hk
        rcases h' with h' | h'
        · exact Or.inl (by exact_mod_cast h')
        · exact Or.inr (by exact_mod_cast h')
      rw [dispatch_widget_other s cell _ hwg hkc]
    · by_cases hA : numModifiersPressed ev = 1 ∧ ev.ctrlKey = true
      · rw [onKeydown_ctrlOnly s ev cell hf hA.1 hA.2]
        have hkc : ¬(-(ev.keyCode : Int) = KeyCode.escape ∨
            -(ev.keyCode : Int) = f2Code) := by
          unfold KeyCode.escape f2Code
          intro h'
          rcases h' with h' | h' <;> omega
        rw [dispatch_widget_other s cell _ hwg hkc]
      · rw [onKeydown_otherMods s ev cell hf h0 hA]

/-- Witness for C2: Escape with no modifiers at widget focus dispatches
`preventDefault` then a zero-delta move; Down at widget focus passes
through untouched. -/
theorem onKeydown_widget_gating_witness :
    sampleWidgetState.onKeydown ⟨27, false, false, false, false⟩ =
        ⟨sampleWidgetState, [Effect.preventDefault,
          Effect.moveFocusBy sampleTable sampleWidgetCell
            ⟨XInt.fin 0, XInt.fin 0⟩], none⟩ ∧
      sampleWidgetState.onKeydown ⟨40, false, false, false, false⟩ =
        ⟨sampleWidgetState, [], none⟩ :=
  ⟨(onKeydown_widget_gating sampleWidgetState ⟨27, false, false, false, false⟩
      sampleWidgetCell sampleTable rfl rfl (by decide) rfl).1 (by decide)
      (Or.inl rfl),
    (onKeydown_widget_gating sampleWidgetState ⟨40, false, false, false, false⟩
      sampleWidgetCell sampleTable rfl rfl (by decide) rfl).2 (by decide)⟩

/-- C4: every recognized command prevents default before dispatching (the
effect trace is empty or starts with `preventDefault`); the Enter branch
with focus off the cell element and the Escape branch with focus already on
the cell element change nothing and do not prevent default. -/
theorem onKeydown_preventDefault_discipline (s : GridNavigationModel)
    (ev : KeyboardEvent) (cell : FocusedCell)
    (hf : s.focusedCell = some cell) :
    ((s.onKeydown ev).effects = [] ∨
      (s.onKeydown ev).effects.head? = some Effect.preventDefault) ∧
    (numModifiersPressed ev = 0 → ev.keyCode = 13 →
      cell.element ≠ cell.cellElement → s.onKeydown ev = ⟨s, [], none⟩) ∧
    (numModifiersPressed ev = 0 → ev.keyCode = 27 →
      cell.element = cell.cellElement → s.onKeydown ev = ⟨s, [], none⟩) := by
  refine ⟨?_, fun h0 hk hne => ?_, fun h0 hk hce => ?_⟩
  · by_cases hA : numModifiersPressed ev = 1 ∧ ev.ctrlKey = true
    · rw [onKeydown_ctrlOnly s ev cell hf hA.1 hA.2]
      exact (onKeydownDispatch_shape s cell _).2.2
    · by_cases hB : numModifiersPressed ev = 0
      · rw [onKeydown_noMods s ev cell hf hB]
        exact (onKeydownDispatch_shape s cell _).2.2
      · rw [onKeydown_otherMods s ev cell hf hB hA]
        exact Or.inl rfl
  · rw [onKeydown_noMods s ev cell hf h0]
    by_cases hwg : widgetGate cell
    · rw [dispatch_widget_other s cell _ hwg (by rw [hk]; decide)]
    · rw [dispatch_enter s cell _ hwg (by rw [hk]; decide), if_neg hne]
  · rw [onKeydown_noMods s ev cell hf h0]
    have hwg : ¬widgetGate cell := fun h => h.2 hce
    rw [dispatch_escape s cell _ hwg (by rw [hk]; decide),
      if_neg (fun h => h hce)]

/-- Witness for C4: Escape with focus already on the cell element is a
no-op with no `preventDefault`. -/
theorem onKeydown_preventDefault_discipline_witness :
    sampleState.onKeydown ⟨27, false, false, false, false⟩ =
      ⟨sampleState, [], none⟩ :=
  (onKeydown_preventDefault_discipline sampleState
    ⟨27, false, false, false, false⟩ sampleCell rfl).2.2 (by decide) rfl rfl

/-! ## Mutation handler characterization -/

theorem recordRemovalMoves_eq (t : Table) (prev : FocusedCell)
    (nodes : List Node) :
    recordRemovalMoves t prev nodes =
      (nodes.filter fun n => containsOrEqual n prev.element).map
        (fun _ => Effect.moveFocusBy t prev ⟨XInt.fin 0, XInt.fin 0⟩) := by
  induction nodes with
  | nil => rfl
  | cons n rest ih =>
    unfold recordRemovalMoves
    rw [List.filter_cons]
    cases h : containsOrEqual n prev.element <;> simp [h, ih]

theorem mutationMoves_eq (t : Table) (prev : FocusedCell)
    (records : List MutationRecord) :
    mutationMoves t prev records =
      records.flatMap fun r =>
        if r.type = "childList" then
          (r.removedNodes.filter fun n => containsOrEqual n prev.element).map
            (fun _ => Effect.moveFocusBy t prev ⟨XInt.fin 0, XInt.fin 0⟩)
        else [] := by
  induction records with
  | nil => rfl
  | cons r rest ih =>
    unfold mutationMoves
    rw [List.flatMap_cons, ih]
    by_cases h : r.type = "childList"
    · rw [if_pos h, if_pos h, recordRemovalMoves_eq]
    · rw [if_neg h, if_neg h]

/-- C5: a structural-mutation batch is a no-op when `prevFocusedCell` is
null; otherwise a zero-delta move from `prevFocusedCell` is issued for
every removed node of a `childList` record containing the previously
focused element, and afterwards index metadata is refreshed from
`focusedCell` when present, else `prevFocusedCell`. -/
theorem onMutation_behavior (s : GridNavigationModel)
    (records : List MutationRecord) (prev : FocusedCell) (t : Table) :
    (s.prevFocusedCell = none → s.onMutation records = ⟨s, [], none⟩) ∧
    (s.prevFocusedCell = some prev → s._table = some t →
      s.onMutation records = ⟨s,
        (records.flatMap fun r =>
          if r.type = "childList" then
            (r.removedNodes.filter fun n => containsOrEqual n prev.element).map
              (fun _ => Effect.moveFocusBy t prev ⟨XInt.fin 0, XInt.fin 0⟩)
          else []) ++
          [Effect.updateTableIndices t (some (s.focusedCell.getD prev))],
        none⟩) := by
  refine ⟨fun h => ?_, fun h ht => ?_⟩
  · simp only [GridNavigationModel.onMutation, h]
  · simp only [GridNavigationModel.onMutation, h, ht]
    rw [mutationMoves_eq]

/-- Witness for C5: removing a row node that contains the focused cell
element issues one zero-delta move and then refreshes indices. -/
theorem onMutation_behavior_witness :
    sampleState.onMutation [⟨"childList", [⟨4, [2, 3]⟩]⟩] =
      ⟨sampleState,
        [Effect.moveFocusBy sampleTable sampleCell ⟨XInt.fin 0, XInt.fin 0⟩,
          Effect.updateTableIndices sampleTable (some sampleCell)], none⟩ := by
  rw [(onMutation_behavior sampleState [⟨"childList", [⟨4, [2, 3]⟩]⟩]
    sampleCell sampleTable).2 rfl rfl]
  rfl

/-- C6: a `focusin` event whose target does not resolve to a cell leaves
the state unchanged and refreshes nothing; on successful resolution both
focus slots are set to the new descriptor and index metadata is refreshed. -/
theorem onFocusin_behavior (s : GridNavigationModel) (ev : FocusEvent)
    (cell : FocusedCell) (t : Table) :
    (findFocusinCell ev = none → s.onFocusin ev = ⟨s, [], none⟩) ∧
    (findFocusinCell ev = some cell → s._table = some t →
      s.onFocusin ev =
        ⟨{ s with prevFocusedCell := some cell, focusedCell := some cell },
          [Effect.updateTableIndices t (some cell)], none⟩) := by
  refine ⟨fun h => ?_, fun h ht => ?_⟩
  · simp only [GridNavigationModel.onFocusin, h]
  · simp only [GridNavigationModel.onFocusin, h, ht]

/-- Witness for C6: a resolvable `focusin` on a freshly initialized model
sets both focus slots and refreshes indices. -/
theorem onFocusin_behavior_witness :
    sampleInitState.onFocusin ⟨some sampleCell⟩ =
      ⟨{ sampleInitState with
          prevFocusedCell := some sampleCell
          focusedCell := some sampleCell },
        [Effect.updateTableIndices sampleTable (some sampleCell)], none⟩ :=
  (onFocusin_behavior sampleInitState ⟨some sampleCell⟩ sampleCell
    sampleTable).2 rfl rfl

/-! ## State-preservation lemmas for the transition relation -/

theorem onKeydown_state (s : GridNavigationModel) (ev : KeyboardEvent) :
    (s.onKeydown ev).state = s := by
  cases hf : s.focusedCell with
  | none => simp [GridNavigationModel.onKeydown, hf]
  | some c =>
    by_cases hA : numModifiersPressed ev = 1 ∧ ev.ctrlKey = true
    · rw [onKeydown_ctrlOnly s ev c hf hA.1 hA.2]
      exact (onKeydownDispatch_shape s c _).1
    · by_cases hB : numModifiersPressed ev = 0
      · rw [onKeydown_noMods s ev c hf hB]
        exact (onKeydownDispatch_shape s c _).1
      · rw [onKeydown_otherMods s ev c hf hB hA]

theorem onMutation_state (s : GridNavigationModel)
    (records : List MutationRecord) : (s.onMutation records).state = s := by
  unfold GridNavigationModel.onMutation
  cases s.prevFocusedCell with
  | none => rfl
  | some prev => cases s._table <;> rfl

theorem destroy_state (s : GridNavigationModel) (env : ListenerEnv) :
    (s.destroy env).1 = s := by
  unfold GridNavigationModel.destroy
  cases s.cleanup with
  | empty => rfl
  | forTable t => cases s._table <;> rfl

theorem step_prev (s : GridNavigationModel) (env : ListenerEnv) (a : Action) :
    (step s env a).1.prevFocusedCell = s.prevFocusedCell ∨
      ∃ ev cell, a = Action.focusin ev ∧ findFocusinCell ev = some cell ∧
        (step s env a).1.prevFocusedCell = some cell := by
  cases a with
  | focusin ev =>
    cases hc : findFocusinCell ev with
    | none => left; simp [step, GridNavigationModel.onFocusin, hc]
    | some cell =>
      right
      refine ⟨ev, cell, rfl, hc, ?_⟩
      simp only [step, GridNavigationModel.onFocusin, hc]
      cases ht : s._table <;> simp [ht]
  | focusout => left; rfl
  | keydown ev => left; simp [step, onKeydown_state]
  | mutation rs => left; simp [step, onMutation_state]
  | init t => left; rfl
  | destroy => left; simp [step, destroy_state]
  | update p => left; rfl

/-- C7: `prevFocusedCell` is null only before the first successful focus
event: no transition resets it to null once set, transitions other than a
successful `focusin` leave it unchanged, and `focusout` clears only
`focusedCell`. -/
theorem prevFocusedCell_lifecycle (s : GridNavigationModel)
    (env : ListenerEnv) (a : Action) :
    (s.prevFocusedCell ≠ none → (step s env a).1.prevFocusedCell ≠ none) ∧
    ((∀ ev, a = Action.focusin ev → findFocusinCell ev = none) →
      (step s env a).1.prevFocusedCell = s.prevFocusedCell) ∧
    s.onFocusout.state = { s with focusedCell := none } := by
  refine ⟨fun h => ?_, fun hno => ?_, rfl⟩
  · rcases step_prev s env a with h' | ⟨ev, cell, _, _, h'⟩
    · rw [h']; exact h
    · rw [h']; exact Option.some_ne_none cell
  · rcases step_prev s env a with h' | ⟨ev, cell, ha, hc, h'⟩
    · exact h'
    · rw [hno ev ha] at hc
      exact Option.noConfusion hc

/-- Witness for C7: after a `focusout` from `sampleState`, the previous
focused cell is still recorded. -/
theorem prevFocusedCell_lifecycle_witness :
    (step sampleState ⟨true, true, true, true⟩ Action.focusout).1.prevFocusedCell
      ≠ none :=
  (prevFocusedCell_lifecycle sampleState ⟨true, true, true, true⟩
    Action.focusout).1 (by decide)

/-! ## Lifecycle: the table getter and destroy -/

/-- `new GridNavigationModel()`: every field at its initial value. -/
def freshModel : GridNavigationModel := {}

/-- Counterexample to C8 at a concrete input: after `init` on a fresh model
followed by `destroy`, the `table` getter still succeeds — `destroy` does
not clear `_table`, so access after detach does not fail. -/
theorem table_after_destroy_counterexample :
    ((freshModel.init sampleTable).1.destroy
        (freshModel.init sampleTable).2.1).1.table = Except.ok sampleTable := rfl

/-- C8 (amended): accessing the bound table before `init` throws
immediately and unconditionally; after `init` followed by `destroy` the
table reference is retained and access succeeds. -/
theorem table_getter_lifecycle (s : GridNavigationModel) (t : Table)
    (h : s._table = none) :
    s.table = Except.error initErrorMsg ∧
    ((s.init t).1.destroy (s.init t).2.1).1.table = Except.ok t := by
  constructor
  · simp only [GridNavigationModel.table, h]
  · rw [destroy_state]
    simp [GridNavigationModel.init, GridNavigationModel.table]

/-- Witness for C8 (amended) on the fresh model and the sample table. -/
theorem table_getter_lifecycle_witness :
    freshModel.table = Except.error initErrorMsg ∧
    ((freshModel.init sampleTable).1.destroy
        (freshModel.init sampleTable).2.1).1.table = Except.ok sampleTable :=
  table_getter_lifecycle freshModel sampleTable rfl

/-- Counterexample to C9 at a concrete input: after `init` and a first
`destroy`, the `cleanup` slot still holds the installed closure — it is
never reset to the empty function, so the second `destroy` call does not
run against an already-empty cleanup. -/
theorem destroy_cleanup_counterexample :
    ((freshModel.init sampleTable).1.destroy
        (freshModel.init sampleTable).2.1).1.cleanup ≠ Cleanup.empty := by
  decide

/-- C9 (amended): `destroy` before `init` is a no-op (the cleanup closure
defaults to an empty function); after `init`, `destroy` does not throw, and
a second `destroy` re-invokes the same installed cleanup, whose listener
removals and observer disconnect leave the already-cleaned environment
unchanged — it returns exactly the first call's result. -/
theorem destroy_idempotent_behavior (s : GridNavigationModel)
    (env env2 : ListenerEnv) (t : Table) (h : s.cleanup = Cleanup.empty) :
    s.destroy env = (s, env, none) ∧
    ((s.init t).1.destroy env2).2.2 = none ∧
    (s.init t).1.destroy (((s.init t).1.destroy env2).2.1) =
      (s.init t).1.destroy env2 := by
  refine ⟨?_, ?_, ?_⟩
  · unfold GridNavigationModel.destroy
    rw [h]
  · simp [GridNavigationModel.init, GridNavigationModel.destroy]
  · simp [GridNavigationModel.init, GridNavigationModel.destroy]

/-- Witness for C9 (amended) on the fresh model and the sample table. -/
theorem destroy_idempotent_behavior_witness :
    freshModel.destroy ⟨false, false, false, false⟩ =
        (freshModel, ⟨false, false, false, false⟩, none) ∧
      ((freshModel.init sampleTable).1.destroy ⟨true, true, true, true⟩).2.2 =
        none ∧
      (freshModel.init sampleTable).1.destroy
          (((freshModel.init sampleTable).1.destroy
            ⟨true, true, true, true⟩).2.1) =
        (freshModel.init sampleTable).1.destroy ⟨true, true, true, true⟩ :=
  destroy_idempotent_behavior freshModel ⟨false, false, false, false⟩
    ⟨true, true, true, true⟩ sampleTable rfl

end GridNav
